import Mathlib

/-!
Verification development for the AI_PPT repository (src/PPT.py).

The Python source is shallowly embedded: strings are handled as `List Char`
(`Str`), Python integers as `Int`, Python `None`-able parameters as `Option`,
and the dynamically typed JSON values that `json.loads` may return as the
inductive `PyVal`.  External collaborators (the Gemini endpoint, `json.loads`,
the DALL-E endpoint, the PIL library) are modelled as explicit parameters or
as abstract descriptive values, while every piece of logic that lives in
src/PPT.py is translated function by function.
-/

set_option maxHeartbeats 1000000

abbrev Str := List Char

/-- Whitespace characters stripped by Python's `str.strip` (ASCII set, which
also matches the characters the regex class backslash-s accepts). -/
def isPySpace (c : Char) : Bool :=
  c = ' ' || c = '\t' || c = '\n' || c = '\r' || c = '\x0b' || c = '\x0c'

/-- Embedding of Python `str.strip()` on character lists. -/
def pyStripL (t : Str) : Str :=
  ((t.dropWhile isPySpace).reverse.dropWhile isPySpace).reverse

/-- Embedding of Python `str.split(sep)` for a one-character separator;
`splitOnChar c t` always returns at least one (possibly empty) piece. -/
def splitOnChar (c : Char) : Str → List Str
  | [] => [[]]
  | a :: rest =>
    if a = c then [] :: splitOnChar c rest
    else
      match splitOnChar c rest with
      | [] => [[a]]
      | h :: tl => (a :: h) :: tl

/-- First index at or after which `pat` occurs in `t` (Python `str.find` for
substrings); `Option.none` when `pat` never occurs. -/
def findSub (pat : Str) : Str → Option Nat
  | [] => if pat.isEmpty then some 0 else Option.none
  | c :: cs =>
    if pat.isPrefixOf (c :: cs) then some 0
    else (findSub pat cs).map Nat.succ

/-- Index of the first occurrence of character `c` (Python `str.find`). -/
def findCharIdx (c : Char) : Str → Option Nat
  | [] => Option.none
  | a :: rest => if a = c then some 0 else (findCharIdx c rest).map Nat.succ

/-- Index of the last occurrence of character `c` (Python `str.rfind`). -/
def rfindChar (c : Char) : Str → Option Nat
  | [] => Option.none
  | a :: rest =>
    match rfindChar c rest with
    | some i => some (i + 1)
    | Option.none => if a = c then some 0 else Option.none

/-- Substring containment test (Python `in` on strings). -/
def containsSub (pat t : Str) : Bool :=
  (findSub pat t).isSome

/-- Embedding of Python `str.replace(a, b)` for one-character arguments. -/
def replaceChar (a b : Char) (s : String) : String :=
  String.mk (s.data.map fun c => if c = a then b else c)

/-- Worker for `pyTitle`: the flag records whether the previous character was
a cased (alphabetic) one, exactly as CPython's `str.title` tracks it. -/
def pyTitleAux : Bool → Str → Str
  | _, [] => []
  | prevCased, c :: cs =>
    if c.isAlpha then
      (if prevCased then c.toLower else c.toUpper) :: pyTitleAux true cs
    else
      c :: pyTitleAux false cs

/-- Embedding of Python `str.title()` (ASCII letters). -/
def pyTitle (s : String) : String :=
  String.mk (pyTitleAux false s.data)

/-- Embedding of the Python slice `s[:n]`. -/
def pyTakeStr (n : Nat) (s : String) : String :=
  String.mk (s.data.take n)

/-- Truthiness of an optional Python string: `None` and the empty string are
falsy, every other string is truthy. -/
def pyTruthyStr : Option String → Bool
  | Option.none => false
  | some s => !s.data.isEmpty

/-! ## Data model

`SlideSpec` is the slide dictionary built by the fallback generator
(`slide_number`, `type`, `title`, `content`, `bullet_points`,
`image_prompt`); `PresentationStructure` is the top-level dictionary
(`title`, `subtitle`, `slides`). -/

structure SlideSpec where
  slide_number : Nat
  type : String
  title : String
  content : String
  bullet_points : List String
  image_prompt : String
deriving Repr, DecidableEq

structure PresentationStructure where
  title : String
  subtitle : String
  slides : List SlideSpec
deriving Repr, DecidableEq

/-! ## GeminiContentGenerator._extract_key_points_from_text -/

/-- Default points appended when fewer than three sentences qualify
(src/PPT.py lines 241-246). -/
def defaultExtendPoints : List String :=
  ["Key insight from the provided content",
   "Important consideration for implementation",
   "Strategic implications and next steps"]

/-- Embedding of `GeminiContentGenerator._extract_key_points_from_text`
(src/PPT.py lines 232-248): split on periods, keep the first four sentences
whose stripped form is longer than 10 characters, pad with the three default
points when fewer than three qualify, and return at most six. -/
def extract_key_points_from_text (text : String) : List String :=
  let sentences := splitOnChar '.' text.data
  let points := (sentences.take 4).filterMap fun s =>
    let t := pyStripL s
    if 10 < t.length then some (String.mk t) else Option.none
  let points2 := if points.length < 3 then points ++ defaultExtendPoints else points
  points2.take 6

/-- Number of sentences among the first four that qualify as key points
(stripped length over ten characters). -/
def qualifyingSentenceCount (text : String) : Nat :=
  ((splitOnChar '.' text.data).take 4).countP
    fun s => decide (10 < (pyStripL s).length)

/-! ## GeminiContentGenerator._generate_slide_content -/

/-- Embedding of `GeminiContentGenerator._generate_slide_content`
(src/PPT.py lines 250-315): the `content_templates` lookup table with its
generic default entry.  The `slide_number` field is absent from the Python
dictionary at this point and is assigned by the caller; it is initialised
to 0 here and always overwritten. -/
def generate_slide_content (topic slide_type : String) : SlideSpec :=
  if slide_type = "introduction" then
    { slide_number := 0
      title := "Introduction to " ++ topic
      content := "Welcome to our comprehensive presentation on " ++ topic ++
        ". Today we'll explore the key aspects, benefits, and implications of this important subject."
      type := slide_type
      bullet_points :=
        ["Understanding " ++ topic,
         "Key concepts and definitions",
         "Why this matters today",
         "What we'll cover in this presentation"]
      image_prompt := topic ++ " introduction concept, modern professional illustration" }
  else if slide_type = "overview" then
    { slide_number := 0
      title := topic ++ " - Overview"
      content := "Let's examine the main components and aspects of " ++ topic ++ "."
      type := slide_type
      bullet_points :=
        ["Historical context and background",
         "Current state and trends",
         "Key stakeholders involved",
         "Main applications and use cases"]
      image_prompt := topic ++ " overview infographic, business concept visualization" }
  else if slide_type = "benefits" then
    { slide_number := 0
      title := "Benefits of " ++ topic
      content := "Exploring the key advantages and positive impacts of " ++ topic ++ "."
      type := slide_type
      bullet_points :=
        ["Improved efficiency and productivity",
         "Cost savings and resource optimization",
         "Enhanced user experience",
         "Future growth opportunities"]
      image_prompt := topic ++ " benefits illustration, growth and success concept" }
  else if slide_type = "challenges" then
    { slide_number := 0
      title := "Challenges in " ++ topic
      content := "Understanding the obstacles and considerations for " ++ topic ++ "."
      type := slide_type
      bullet_points :=
        ["Technical limitations and constraints",
         "Implementation barriers",
         "Resource requirements",
         "Risk mitigation strategies"]
      image_prompt := topic ++ " challenges visualization, problem-solving concept" }
  else
    { slide_number := 0
      title := pyTitle (replaceChar '_' ' ' slide_type) ++ " - " ++ topic
      content := "Detailed information about " ++ topic ++ " related to " ++ slide_type
      type := slide_type
      bullet_points :=
        ["Key point about this aspect",
         "Important consideration",
         "Practical implementation",
         "Summary and takeaways"]
      image_prompt := topic ++ " " ++ slide_type ++ " professional illustration" }

/-! ## GeminiContentGenerator._generate_fallback_content -/

/-- Default slide-type list used when no focus areas are supplied
(src/PPT.py line 222). -/
def defaultSlideTypes : List String :=
  ["introduction", "overview", "benefits", "challenges", "implementation", "conclusion"]

/-- Slide types actually used by the fallback generator: `focus_areas` when it
is truthy (a non-empty list), the default list otherwise (src/PPT.py
lines 218-222, Python truthiness of `None` and `[]`). -/
def effectiveSlideTypes : Option (List String) → List String
  | some fa => if fa.isEmpty then defaultSlideTypes else fa
  | Option.none => defaultSlideTypes

/-- Embedding of `GeminiContentGenerator._generate_fallback_content`
(src/PPT.py lines 196-230).  When `custom_content` is truthy a custom first
slide is inserted and `num_slides` is decremented; then
`min(num_slides, len(slide_types))` template slides are appended, numbering
them from the current length of the slide list.  `num_slides` is an `Int`
because the decremented value can be compared while negative, in which case
the Python `range` is empty (captured by `Int.toNat`). -/
def generate_fallback_content (topic : String) (num_slides : Int)
    (focus_areas : Option (List String)) (custom_content : Option String) :
    PresentationStructure :=
  let baseSlides : List SlideSpec :=
    if pyTruthyStr custom_content then
      [{ slide_number := 1
         type := "custom"
         title := "About " ++ topic
         content := custom_content.getD ""
         bullet_points := extract_key_points_from_text (custom_content.getD "")
         image_prompt := topic ++ " overview illustration" }]
    else []
  let ns : Int := if pyTruthyStr custom_content then num_slides - 1 else num_slides
  let slide_types := effectiveSlideTypes focus_areas
  let k : Nat := (min ns (slide_types.length : Int)).toNat
  { title := topic
    subtitle := "AI-Generated Presentation"
    slides := baseSlides ++ (List.range k).map fun i =>
      { generate_slide_content topic (slide_types.getD i "detailed") with
        slide_number := baseSlides.length + i + 1 } }

/-! ## JSON extraction in GeminiContentGenerator._generate_with_gemini

The regex search `re.search(r'```(?:json)?\s*(.*?)\s*```', text, re.DOTALL)`
is embedded operationally: scan left to right for the first position carrying
an opening fence from which a closing fence is reachable; at that position
optionally skip a literal "json", skip whitespace (the greedy leading `\s*`),
take characters up to the first closing fence (the lazy group), and strip the
whitespace immediately before that fence (the trailing `\s*`).  Because
neither "json" nor whitespace can contain a backtick, this scan computes
exactly the regex engine's leftmost match and its first capture group. -/

def backquoteChar : Char := Char.ofNat 96

def lbraceChar : Char := Char.ofNat 123

def rbraceChar : Char := Char.ofNat 125

def fencePat : Str := [backquoteChar, backquoteChar, backquoteChar]

def jsonWord : Str := ['j', 's', 'o', 'n']

/-- Leftmost match of the fenced-block regex: the returned value is the first
capture group (the fenced block's interior). -/
def fenceSearch : Str → Option Str
  | [] => Option.none
  | t@(_ :: cs) =>
    if fencePat.isPrefixOf t then
      let afterOpen := t.drop 3
      let afterJson := if jsonWord.isPrefixOf afterOpen then afterOpen.drop 4 else afterOpen
      let content := afterJson.dropWhile isPySpace
      match findSub fencePat content with
      | some e => some (((content.take e).reverse.dropWhile isPySpace).reverse)
      | Option.none => fenceSearch cs
    else fenceSearch cs

/-- Embedding of the JSON-extraction step of
`GeminiContentGenerator._generate_with_gemini` (src/PPT.py lines 156-169):
strip the response, search for a fenced block, otherwise slice from the
first opening brace to the last closing brace when both exist, otherwise
keep the whole stripped text. -/
def extract_json_content (responseText : String) : String :=
  let t := pyStripL responseText.data
  match fenceSearch t with
  | some g => String.mk g
  | Option.none =>
    match findCharIdx lbraceChar t, rfindChar rbraceChar t with
    | some js, some je => String.mk ((t.drop js).take (je + 1 - js))
    | _, _ => String.mk t

/-! ## Python values

`PyVal` models the values `json.loads` can produce (floats are outside the
scope of the claims and omitted). -/

inductive PyVal where
  | str : String → PyVal
  | int : Int → PyVal
  | bool : Bool → PyVal
  | null : PyVal
  | list : List PyVal → PyVal
  | dict : List (String × PyVal) → PyVal
deriving Repr

/-- Lookup in a Python dictionary modelled as an association list (keys are
unique in any dictionary produced by `json.loads`). -/
def dictGet (kvs : List (String × PyVal)) (k : String) : Option PyVal :=
  match kvs with
  | [] => Option.none
  | (k2, v) :: rest => if k2 = k then some v else dictGet rest k

/-- Assignment `d[k] = v` on a Python dictionary: replace in place when the
key exists (preserving insertion order), append otherwise. -/
def dictSet (kvs : List (String × PyVal)) (k : String) (v : PyVal) :
    List (String × PyVal) :=
  match kvs with
  | [] => [(k, v)]
  | (k2, v2) :: rest => if k2 = k then (k2, v) :: rest else (k2, v2) :: dictSet rest k v

/-- Escapes applied by Python `repr` to a character of a string quoted with
`q` (printable ASCII fragment of CPython's behaviour). -/
def pyEscapeChar (q c : Char) : Str :=
  if c = '\\' then ['\\', '\\']
  else if c = q then ['\\', q]
  else if c = '\n' then ['\\', 'n']
  else if c = '\r' then ['\\', 'r']
  else if c = '\t' then ['\\', 't']
  else [c]

def singleQuoteChar : Char := Char.ofNat 39

def doubleQuoteChar : Char := Char.ofNat 34

/-- Python `repr` of a string: single quotes by default, double quotes when
the string contains a single quote but no double quote. -/
def pyReprStr (s : String) : String :=
  let hasSingle := s.data.contains singleQuoteChar
  let hasDouble := s.data.contains doubleQuoteChar
  let q := if hasSingle && !hasDouble then doubleQuoteChar else singleQuoteChar
  String.mk ([q] ++ (s.data.map (pyEscapeChar q)).flatten ++ [q])

mutual

/-- Python `repr` of a `PyVal` (used by f-string interpolation of non-string
values). -/
def pyRepr : PyVal → String
  | PyVal.str s => pyReprStr s
  | PyVal.int n => toString n
  | PyVal.bool b => if b then "True" else "False"
  | PyVal.null => "None"
  | PyVal.list xs => "[" ++ pyReprElems xs ++ "]"
  | PyVal.dict kvs => "\x7b" ++ pyReprEntries kvs ++ "\x7d"

def pyReprElems : List PyVal → String
  | [] => ""
  | [x] => pyRepr x
  | x :: y :: xs => pyRepr x ++ ", " ++ pyReprElems (y :: xs)

def pyReprEntries : List (String × PyVal) → String
  | [] => ""
  | [(k, v)] => pyReprStr k ++ ": " ++ pyRepr v
  | (k, v) :: e :: kvs => pyReprStr k ++ ": " ++ pyRepr v ++ ", " ++ pyReprEntries (e :: kvs)

end

/-- Python `str()` of a `PyVal`, as used when a value is interpolated into an
f-string: strings are taken verbatim, everything else goes through `repr`. -/
def pyStrOf : PyVal → String
  | PyVal.str s => s
  | v => pyRepr v

/-! ## Slide backfill in GeminiContentGenerator._generate_with_gemini -/

/-- Default bullet points backfilled into a parsed slide (src/PPT.py
line 181). -/
def bulletPointsDefault : PyVal :=
  PyVal.list [PyVal.str "Key point 1", PyVal.str "Key point 2", PyVal.str "Key point 3"]

/-- Embedding of the per-slide backfill loop body (src/PPT.py lines 179-185):
add `bullet_points`, `image_prompt` and `content` when missing; the `content`
default interpolates `slide.get('title', topic)`. -/
def ensure_slide_fields (topic : String) (slide : List (String × PyVal)) :
    List (String × PyVal) :=
  let d1 := if (dictGet slide "bullet_points").isSome then slide
            else slide ++ [("bullet_points", bulletPointsDefault)]
  let d2 := if (dictGet d1 "image_prompt").isSome then d1
            else d1 ++ [("image_prompt", PyVal.str (topic ++ " related illustration"))]
  if (dictGet d2 "content").isSome then d2
  else d2 ++ [("content",
    PyVal.str ("Content about " ++ pyStrOf ((dictGet d2 "title").getD (PyVal.str topic))))]

/-- Membership `'k' in s` for a Python string slide: the backfill loop skips
an assignment only when the key is a substring of the string. -/
def strSlideKeysPresent (s : Str) : Bool :=
  containsSub ("bullet_points".data) s &&
  containsSub ("image_prompt".data) s &&
  containsSub ("content".data) s

/-- Backfill applied to the elements of `structure['slides']` when that value
is a list.  A dictionary element is updated; a string element survives only
when all three keys occur in it as substrings (otherwise the item assignment
raises `TypeError`); any other element makes the membership test raise
`TypeError`.  `Option.none` models the raised exception, which the caller
turns into the fallback structure. -/
def backfillSlideList (topic : String) : List PyVal → Option (List PyVal)
  | [] => some []
  | PyVal.dict kvs :: rest =>
    (backfillSlideList topic rest).map fun r =>
      PyVal.dict (ensure_slide_fields topic kvs) :: r
  | PyVal.str s :: rest =>
    if strSlideKeysPresent s.data then
      (backfillSlideList topic rest).map fun r => PyVal.str s :: r
    else Option.none
  | _ :: _ => Option.none

/-- Backfill applied to the whole `structure['slides']` value.  Python
iterates lists element-wise, strings character-wise and dictionaries
key-wise; non-iterable values raise `TypeError` immediately
(`Option.none`). -/
def backfillSlidesVal (topic : String) : PyVal → Option PyVal
  | PyVal.list xs => (backfillSlideList topic xs).map PyVal.list
  | PyVal.str s =>
    -- Iterating a string yields one-character strings; a single character can
    -- never contain the key names, so any non-empty string raises TypeError.
    if s.data.isEmpty then some (PyVal.str s) else Option.none
  | PyVal.dict kvs =>
    -- Iterating a dictionary yields its string keys; they are left unchanged
    -- only when every key contains all three field names as substrings.
    if kvs.all (fun p => strSlideKeysPresent p.1.data) then some (PyVal.dict kvs)
    else Option.none
  | _ => Option.none

/-- Encoding of a fallback `PresentationStructure` as the Python dictionary
the source actually returns (dictionary equality in Python is key-order
insensitive, so one canonical key order is used). -/
def pyValOfSlide (s : SlideSpec) : PyVal :=
  PyVal.dict
    [("slide_number", PyVal.int (s.slide_number : Int)),
     ("type", PyVal.str s.type),
     ("title", PyVal.str s.title),
     ("content", PyVal.str s.content),
     ("bullet_points", PyVal.list (s.bullet_points.map PyVal.str)),
     ("image_prompt", PyVal.str s.image_prompt)]

def pyValOfStructure (p : PresentationStructure) : PyVal :=
  PyVal.dict
    [("title", PyVal.str p.title),
     ("subtitle", PyVal.str p.subtitle),
     ("slides", PyVal.list (p.slides.map pyValOfSlide))]

/-- Test used on the parsed value (src/PPT.py line 175):
`isinstance(structure, dict) and 'slides' in structure`. -/
def isDictWithSlides : PyVal → Bool
  | PyVal.dict kvs => (dictGet kvs "slides").isSome
  | _ => false

/-- Embedding of `GeminiContentGenerator._generate_with_gemini`
(src/PPT.py lines 151-194) from the point where the response text is in
hand.  `parse` abstracts `json.loads`, returning `Option.none` for a
`JSONDecodeError`.  Every raised exception (decode error, the explicit
`ValueError` for a non-dict or missing `slides`, and the `TypeError`s of the
backfill loop) is caught and answered with the fallback structure. -/
def generate_with_gemini (parse : String → Option PyVal)
    (responseText topic : String) (num_slides : Int)
    (focus_areas : Option (List String)) (custom_content : Option String) : PyVal :=
  let fb := pyValOfStructure
    (generate_fallback_content topic num_slides focus_areas custom_content)
  match parse (extract_json_content responseText) with
  | Option.none => fb
  | some structureVal =>
    match structureVal with
    | PyVal.dict kvs =>
      match dictGet kvs "slides" with
      | Option.none => fb
      | some slidesVal =>
        match backfillSlidesVal topic slidesVal with
        | Option.none => fb
        | some newSlides => PyVal.dict (dictSet kvs "slides" newSlides)
    | _ => fb

/-! ## ImageGenerator

The DALL-E endpoint and PIL are external collaborators.  The network call is
abstracted by `ImageApiOutcome`; the PIL drawing calls of
`_generate_placeholder_image` are recorded as a descriptive value, and PIL's
PNG serialisation is modelled abstractly as the PNG signature followed by the
character codes of the drawn texts. -/

/-- Drawn-text content of the placeholder produced by
`ImageGenerator._generate_placeholder_image` (src/PPT.py lines 398-408):
a title line, a description line interpolating `prompt[:40]`, and a caption
line. -/
def placeholder_texts (prompt : String) : List String :=
  ["Professional Image Placeholder",
   "Topic: " ++ pyTakeStr 40 prompt ++ "...",
   "Generated by AI PowerPoint Pro"]

/-- Descriptive record of the placeholder image: a 1024x768 RGB bitmap with
the three drawn texts. -/
structure PlaceholderImage where
  width : Nat
  height : Nat
  background : Nat × Nat × Nat
  texts : List String
deriving Repr, DecidableEq

def placeholderImageOf (prompt : String) : PlaceholderImage :=
  { width := 1024, height := 768, background := (240, 248, 255),
    texts := placeholder_texts prompt }

/-- Eight-byte signature that opens every PNG stream. -/
def pngSignature : List Nat := [137, 80, 78, 71, 13, 10, 26, 10]

/-- Abstract model of `img.save(img_bytes, format='PNG')` from the external
PIL library: a byte stream opening with the PNG signature and carrying the
drawn texts (as character codes, NUL-separated). -/
def pngEncode (img : PlaceholderImage) : List Nat :=
  pngSignature ++ (img.texts.map fun t => t.data.map Char.toNat ++ [0]).flatten

/-- Embedding of `ImageGenerator._generate_placeholder_image`
(src/PPT.py lines 377-421): build the placeholder bitmap and serialise it as
PNG bytes. -/
def generate_placeholder_image (prompt : String) : List Nat :=
  pngEncode (placeholderImageOf prompt)

/-- Outcome of the one network round trip of `ImageGenerator.generate_image`:
a timeout, a requests-level error, any other exception, or an HTTP response
with its status, the extracted image URL, and the status and body of the
image download. -/
inductive ImageApiOutcome where
  | timeout
  | requestError (msg : String)
  | otherFailure (msg : String)
  | httpResponse (status : Int) (imageUrl : String) (downloadStatus : Int)
      (imageData : List Nat)
deriving Repr, DecidableEq

/-- Embedding of `ImageGenerator.generate_image` (src/PPT.py lines 324-375):
with a falsy API key, or on any failure of the generation call or of the
image download, the placeholder bytes are returned; only a 200 response
followed by a 200 download returns the downloaded bytes. -/
def generate_image (api_key : Option String) (outcome : ImageApiOutcome)
    (prompt : String) : Option (List Nat) :=
  if !pyTruthyStr api_key then some (generate_placeholder_image prompt)
  else
    match outcome with
    | ImageApiOutcome.httpResponse status _ dlStatus imageData =>
      if status = 200 then
        if dlStatus = 200 then some imageData
        else some (generate_placeholder_image prompt)
      else some (generate_placeholder_image prompt)
    | _ => some (generate_placeholder_image prompt)

/-! ## The slide-count input of the user interface

`st.slider("...", min_value=3, max_value=12, value=6)` (src/PPT.py
lines 699-705) accepts exactly the integers between its two bounds. -/

def num_slides_slider_min : Int := 3

def num_slides_slider_max : Int := 12

/-- Acceptance predicate of the slide-count slider. -/
def sliderAccepts (n : Int) : Bool :=
  decide (num_slides_slider_min ≤ n) && decide (n ≤ num_slides_slider_max)

/-! ## Concrete inputs used by witnesses and counterexamples -/

/-- Parser stub standing for `json.loads` raising `JSONDecodeError` on every
input. -/
def alwaysFailParse : String → Option PyVal := fun _ => Option.none

/-- Seven bullet points, one more than the documented invariant allows. -/
def c7Bullets : List PyVal :=
  [PyVal.str "p1", PyVal.str "p2", PyVal.str "p3", PyVal.str "p4",
   PyVal.str "p5", PyVal.str "p6", PyVal.str "p7"]

/-- A parsed slide carrying seven bullet points. -/
def c7BadSlide : List (String × PyVal) := [("bullet_points", PyVal.list c7Bullets)]

/-- Parser stub standing for `json.loads` succeeding with a structure whose
single slide has seven bullet points. -/
def c7Parse : String → Option PyVal :=
  fun _ => some (PyVal.dict [("slides", PyVal.list [PyVal.dict c7BadSlide])])

/-- A 50-character prompt, longer than the 40-character slice drawn into the
placeholder image. -/
def longPrompt : String := String.mk (List.replicate 50 'a')

/-! ## Support lemmas about the embedded string primitives -/

theorem findCharIdx_none_iff (c : Char) (t : Str) :
    findCharIdx c t = Option.none ↔ c ∉ t := by
  induction t with
  | nil => simp [findCharIdx]
  | cons a rest ih =>
    by_cases h : a = c
    · subst h; simp [findCharIdx]
    · rw [findCharIdx, if_neg h, Option.map_eq_none', ih]
      constructor
      · intro hm
        simp only [List.mem_cons]
        rintro (hceq | hmem)
        · exact h hceq.symm
        · exact hm hmem
      · intro hm hmem
        exact hm (List.mem_cons_of_mem a hmem)

theorem findCharIdx_some_sound (c : Char) (t : Str) (i : Nat)
    (h : findCharIdx c t = some i) :
    t[i]? = some c ∧ ∀ j, j < i → t[j]? ≠ some c := by
  induction t generalizing i with
  | nil => simp [findCharIdx] at h
  | cons a rest ih =>
    by_cases hac : a = c
    · subst hac
      simp [findCharIdx] at h
      subst h
      refine ⟨by simp, ?_⟩
      intro j hj
      omega
    · rw [findCharIdx, if_neg hac, Option.map_eq_some'] at h
      obtain ⟨i0, hi0, hsucc⟩ := h
      obtain ⟨hm, hmin⟩ := ih i0 hi0
      subst hsucc
      refine ⟨by simpa using hm, ?_⟩
      intro j hj
      cases j with
      | zero =>
        simp only [List.getElem?_cons_zero]
        intro heq
        exact hac (Option.some.inj heq)
      | succ j0 =>
        simp only [List.getElem?_cons_succ]
        exact hmin j0 (by omega)

theorem rfindChar_none_iff (c : Char) (t : Str) :
    rfindChar c t = Option.none ↔ c ∉ t := by
  induction t with
  | nil => simp [rfindChar]
  | cons a rest ih =>
    cases hr : rfindChar c rest with
    | some k =>
      have : c ∈ rest := by
        by_contra hmem
        rw [ih.mpr hmem] at hr
        exact Option.noConfusion hr
      simp [rfindChar, hr, List.mem_cons, this]
    | none =>
      have hmem : c ∉ rest := ih.mp hr
      by_cases h : a = c
      · subst h; simp [rfindChar, hr]
      · simp [rfindChar, hr, h, List.mem_cons, hmem]
        intro hca
        exact h hca.symm

theorem rfindChar_some_sound (c : Char) (t : Str) (i : Nat)
    (h : rfindChar c t = some i) :
    t[i]? = some c ∧ ∀ j, i < j → t[j]? ≠ some c := by
  induction t generalizing i with
  | nil => simp [rfindChar] at h
  | cons a rest ih =>
    cases hr : rfindChar c rest with
    | some k =>
      rw [rfindChar, hr] at h
      have hik : i = k + 1 := (Option.some.inj h).symm
      subst hik
      obtain ⟨hm, hmax⟩ := ih k hr
      refine ⟨by simpa using hm, ?_⟩
      intro j hj
      cases j with
      | zero => omega
      | succ j0 =>
        simp only [List.getElem?_cons_succ]
        exact hmax j0 (by omega)
    | none =>
      have hmem : c ∉ rest := (rfindChar_none_iff c rest).mp hr
      rw [rfindChar, hr] at h
      by_cases hac : a = c
      · rw [if_pos hac] at h
        have hi : i = 0 := (Option.some.inj h).symm
        subst hi
        refine ⟨by simp [hac], ?_⟩
        intro j hj
        cases j with
        | zero => omega
        | succ j0 =>
          simp only [List.getElem?_cons_succ]
          intro heq
          exact hmem (List.mem_iff_getElem?.mpr ⟨j0, heq⟩)
      · rw [if_neg hac] at h
        exact Option.noConfusion h

theorem isPrefixOf_append_self (a b : Str) : a.isPrefixOf (a ++ b) = true := by
  induction a with
  | nil => simp [List.isPrefixOf]
  | cons c cs ih => simp [List.isPrefixOf, ih]

theorem containsSub_of_prefix_drop (pat : Str) (t : Str) (i : Nat)
    (h : pat.isPrefixOf (t.drop i) = true) : containsSub pat t = true := by
  induction t generalizing i with
  | nil =>
    simp only [List.drop_nil] at h
    cases pat with
    | nil => simp [containsSub, findSub]
    | cons p ps => simp [List.isPrefixOf] at h
  | cons a rest ih =>
    cases i with
    | zero =>
      simp only [List.drop_zero] at h
      simp [containsSub, findSub, h]
    | succ i0 =>
      simp only [List.drop_succ_cons] at h
      have := ih i0 h
      simp only [containsSub, findSub] at this ⊢
      by_cases hp : pat.isPrefixOf (a :: rest) = true
      · simp [hp]
      · simp only [hp]
        simpa using this

theorem strData_append (a b : String) : (a ++ b).data = a.data ++ b.data := by
  cases a
  cases b
  rfl

theorem dictGet_append_some {a : List (String × PyVal)} (b : List (String × PyVal))
    {k : String} {v : PyVal} (h : dictGet a k = some v) :
    dictGet (a ++ b) k = some v := by
  induction a with
  | nil => simp [dictGet] at h
  | cons p rest ih =>
    obtain ⟨k2, v2⟩ := p
    by_cases hk : k2 = k
    · rw [dictGet, if_pos hk] at h
      simp [dictGet, hk, h]
    · rw [dictGet, if_neg hk] at h
      simp [dictGet, hk, ih h]

theorem dictGet_append_none {a : List (String × PyVal)} (b : List (String × PyVal))
    {k : String} (h : dictGet a k = Option.none) :
    dictGet (a ++ b) k = dictGet b k := by
  induction a with
  | nil => simp
  | cons p rest ih =>
    obtain ⟨k2, v2⟩ := p
    by_cases hk : k2 = k
    · rw [dictGet, if_pos hk] at h
      exact Option.noConfusion h
    · rw [dictGet, if_neg hk] at h
      simp [dictGet, hk, ih h]

theorem dictGet_append_singleton_ne {a : List (String × PyVal)} {k k2 : String}
    {v : PyVal} (hne : k2 ≠ k) : dictGet (a ++ [(k2, v)]) k = dictGet a k := by
  cases h : dictGet a k with
  | some w => exact dictGet_append_some _ h
  | none => rw [dictGet_append_none _ h]; simp [dictGet, hne]

theorem getElem?_range_map {α : Type} (f : Nat → α) (k i : Nat) (h : i < k) :
    ((List.range k).map f)[i]? = some (f i) := by
  rw [List.getElem?_map, List.getElem?_range h]
  rfl

theorem length_filterMap_ite {α β : Type} (p : α → Bool) (g : α → β) (l : List α) :
    (l.filterMap fun a => if p a then some (g a) else Option.none).length
      = l.countP p := by
  induction l with
  | nil => simp
  | cons a rest ih =>
    by_cases h : p a
    · simp [List.filterMap_cons, h, ih, List.countP_cons]
    · simp [List.filterMap_cons, h, ih, List.countP_cons]

/-! ## Claim theorems -/

theorem ekp_points_length (text : String) :
    (((splitOnChar '.' text.data).take 4).filterMap fun s =>
        let t := pyStripL s
        if 10 < t.length then some (String.mk t) else Option.none).length
      = ((splitOnChar '.' text.data).take 4).countP
          fun s => decide (10 < (pyStripL s).length) := by
  generalize (splitOnChar '.' text.data).take 4 = l
  induction l with
  | nil => simp
  | cons a rest ih =>
    by_cases h : 10 < (pyStripL a).length
    · simp [List.filterMap_cons, h, ih, List.countP_cons]
    · simp [List.filterMap_cons, h, ih, List.countP_cons]

theorem ekp_points_subset (text : String) (pt : String)
    (hpt : pt ∈ ((splitOnChar '.' text.data).take 4).filterMap fun s =>
        let t := pyStripL s
        if 10 < t.length then some (String.mk t) else Option.none) :
    pt ∈ ((splitOnChar '.' text.data).take 4).map fun s => String.mk (pyStripL s) := by
  obtain ⟨s, hs, hfs⟩ := List.mem_filterMap.mp hpt
  simp only at hfs
  by_cases h : 10 < (pyStripL s).length
  · rw [if_pos h] at hfs
    exact List.mem_map.mpr ⟨s, hs, Option.some.inj hfs⟩
  · rw [if_neg h] at hfs
    exact Option.noConfusion hfs

/-- C10: `_extract_key_points_from_text` keeps the (at most four) sentences
among the first four returned by splitting on periods whose stripped length
exceeds ten characters, pads with the three fixed default points whenever
fewer than three qualify, truncates to six, and therefore always returns
between three and six bullet strings. -/
theorem c10_extract_key_points_shape (text : String) :
    3 ≤ (extract_key_points_from_text text).length
    ∧ (extract_key_points_from_text text).length ≤ 6
    ∧ (qualifyingSentenceCount text < 3 →
        (extract_key_points_from_text text).length = qualifyingSentenceCount text + 3)
    ∧ (3 ≤ qualifyingSentenceCount text →
        (extract_key_points_from_text text).length = qualifyingSentenceCount text)
    ∧ ∀ pt ∈ extract_key_points_from_text text,
        pt ∈ ((splitOnChar '.' text.data).take 4).map (fun s => String.mk (pyStripL s))
        ∨ pt ∈ defaultExtendPoints := by
  set q := qualifyingSentenceCount text with hqdef
  set pts := ((splitOnChar '.' text.data).take 4).filterMap fun s =>
      let t := pyStripL s
      if 10 < t.length then some (String.mk t) else Option.none with hpts
  have hlen : pts.length = q := ekp_points_length text
  have hekp : extract_key_points_from_text text
      = (if pts.length < 3 then pts ++ defaultExtendPoints else pts).take 6 := rfl
  have hq4 : q ≤ 4 := by
    rw [← hlen]
    calc pts.length ≤ ((splitOnChar '.' text.data).take 4).length :=
          List.length_filterMap_le _ _
      _ ≤ 4 := by
          rw [List.length_take]
          exact Nat.min_le_left _ _
  have hd3 : defaultExtendPoints.length = 3 := rfl
  refine ⟨?_, ?_, ?_, ?_, ?_⟩
  · rw [hekp]
    by_cases h : pts.length < 3
    · rw [if_pos h, List.length_take, List.length_append, hd3]
      omega
    · rw [if_neg h, List.length_take]
      omega
  · rw [hekp]
    by_cases h : pts.length < 3
    · rw [if_pos h, List.length_take]
      omega
    · rw [if_neg h, List.length_take]
      omega
  · intro hq
    rw [hekp, if_pos (by omega : pts.length < 3), List.length_take,
      List.length_append, hd3]
    omega
  · intro hq
    rw [hekp, if_neg (by omega : ¬pts.length < 3), List.length_take]
    omega
  · intro pt hpt
    rw [hekp] at hpt
    have hpt2 := List.mem_of_mem_take hpt
    by_cases h : pts.length < 3
    · rw [if_pos h] at hpt2
      rcases List.mem_append.mp hpt2 with hin | hin
      · exact Or.inl (ekp_points_subset text pt hin)
      · exact Or.inr hin
    · rw [if_neg h] at hpt2
      exact Or.inl (ekp_points_subset text pt hpt2)

/-- C10 witness at a concrete custom-content text. -/
theorem c10_witness :
    3 ≤ (extract_key_points_from_text
      "Hello world this is a sentence. Short. Another long sentence here.").length :=
  (c10_extract_key_points_shape
    "Hello world this is a sentence. Short. Another long sentence here.").1

/-- C3: for a slide-type tag outside the template table, the generic
fallback slide is produced: its title is the tag with underscores replaced
by spaces, title-cased, followed by a dash and the topic (hence non-empty),
and its bullet list is non-empty. -/
theorem c3_unknown_tag_generic (topic slide_type : String)
    (h1 : slide_type ≠ "introduction") (h2 : slide_type ≠ "overview")
    (h3 : slide_type ≠ "benefits") (h4 : slide_type ≠ "challenges") :
    (generate_slide_content topic slide_type).title
        = pyTitle (replaceChar '_' ' ' slide_type) ++ " - " ++ topic
    ∧ (generate_slide_content topic slide_type).title ≠ ""
    ∧ 1 ≤ (generate_slide_content topic slide_type).bullet_points.length := by
  unfold generate_slide_content
  rw [if_neg h1, if_neg h2, if_neg h3, if_neg h4]
  refine ⟨rfl, ?_, by simp⟩
  intro heq
  have hd := congrArg String.data heq
  rw [strData_append, strData_append] at hd
  have hmid : (" - " : String).data ≠ [] := by decide
  rcases List.append_eq_nil.mp hd with ⟨hab, hc⟩
  rcases List.append_eq_nil.mp hab with ⟨ha, hb⟩
  exact hmid hb

/-- C3 witness at the tag "implementation" (present in the default slide-type
list but absent from the template table). -/
theorem c3_witness :
    (generate_slide_content "AI" "implementation").title
        = pyTitle (replaceChar '_' ' ' "implementation") ++ " - " ++ "AI"
    ∧ (generate_slide_content "AI" "implementation").title ≠ ""
    ∧ 1 ≤ (generate_slide_content "AI" "implementation").bullet_points.length :=
  c3_unknown_tag_generic "AI" "implementation"
    (by decide) (by decide) (by decide) (by decide)

/-- C8: the fallback assembler is deterministic and, being embedded as a
pure function of exactly its four arguments (the source reads and writes no
state besides them), side-effect-free: equal inputs give equal
Presentation Structures. -/
theorem c8_fallback_deterministic (t1 t2 : String) (n1 n2 : Int)
    (f1 f2 : Option (List String)) (c1 c2 : Option String)
    (ht : t1 = t2) (hn : n1 = n2) (hf : f1 = f2) (hc : c1 = c2) :
    generate_fallback_content t1 n1 f1 c1 = generate_fallback_content t2 n2 f2 c2 := by
  subst ht
  subst hn
  subst hf
  subst hc
  rfl

/-- C8 witness: two runs on the same concrete input coincide. -/
theorem c8_witness :
    generate_fallback_content "Remote Work" 4 Option.none Option.none
      = generate_fallback_content "Remote Work" 4 Option.none Option.none :=
  c8_fallback_deterministic "Remote Work" "Remote Work" 4 4
    Option.none Option.none Option.none Option.none rfl rfl rfl rfl

/-- C9 counterexample: 13 lies in the range 3..15 the claim asserts is
accepted, but the slider of the user interface rejects it (its maximum is
12). -/
theorem c9_counterexample :
    ((3 : Int) ≤ 13 ∧ (13 : Int) ≤ 15) ∧ sliderAccepts 13 = false := by
  decide

/-- C9 amended: the slide-count slider accepts exactly the integers from 3
to 12 inclusive. -/
theorem c9_slider_range :
    ∀ n : Int, sliderAccepts n = true ↔ 3 ≤ n ∧ n ≤ 12 := by
  intro n
  simp [sliderAccepts, num_slides_slider_min, num_slides_slider_max]

theorem length_defaultSlideTypes_int : ((defaultSlideTypes.length : Nat) : Int) = 6 := rfl

/-- C2: with no custom content, the fallback assembler produces exactly
`min(count, len(tags or default list))` slides, the i-th obtained by template
lookup on the i-th effective tag and numbered `i + 1`. -/
theorem c2_fallback_min_count (topic : String) (N : Int) (hN : 0 ≤ N)
    (focus : Option (List String)) :
    (generate_fallback_content topic N focus Option.none).slides.length
        = (min N ((effectiveSlideTypes focus).length : Int)).toNat
    ∧ ∀ i, i < (generate_fallback_content topic N focus Option.none).slides.length →
        (generate_fallback_content topic N focus Option.none).slides[i]?
          = some { generate_slide_content topic ((effectiveSlideTypes focus).getD i "detailed") with
                   slide_number := i + 1 } := by
  have hslides : (generate_fallback_content topic N focus Option.none).slides
      = (List.range ((min N ((effectiveSlideTypes focus).length : Int)).toNat)).map
          (fun i =>
            { generate_slide_content topic ((effectiveSlideTypes focus).getD i "detailed") with
              slide_number := i + 1 }) := by
    simp [generate_fallback_content, pyTruthyStr]
  constructor
  · rw [hslides]
    simp
  · intro i hi
    rw [hslides] at hi ⊢
    rw [List.length_map, List.length_range] at hi
    exact getElem?_range_map _ _ _ hi

/-- C2 witness at a concrete topic, count and focus-area list. -/
theorem c2_witness :
    (generate_fallback_content "AI" 5 (some ["benefits", "overview"]) Option.none).slides.length
      = (min (5 : Int) ((effectiveSlideTypes (some ["benefits", "overview"])).length : Int)).toNat :=
  (c2_fallback_min_count "AI" 5 (by decide) (some ["benefits", "overview"])).1

/-- C1 counterexample: at slide count 7 (inside the claimed range 3..15) with
no focus areas and no custom content, the fallback assembler produces 6
slides, not 7. -/
theorem c1_counterexample :
    ((3 : Int) ≤ 7 ∧ (7 : Int) ≤ 15)
    ∧ (generate_fallback_content "AI" 7 Option.none Option.none).slides.length ≠ 7 := by
  constructor
  · decide
  · rw [show (generate_fallback_content "AI" 7 Option.none Option.none).slides.length = 6
      from rfl]
    decide

/-- C1 amended: for every topic and slide count N in 3..15, with no focus
areas the fallback structure has exactly `min(N, 6)` slides; with non-empty
custom content it has exactly `min(N - 1, 6) + 1` slides, the first being the
custom slide and each remaining one a template slide for the corresponding
default slide type. -/
theorem c1_fallback_count (topic : String) (N : Int) (h3 : 3 ≤ N) (h15 : N ≤ 15)
    (cc : String) (hcc : cc ≠ "") :
    (generate_fallback_content topic N Option.none Option.none).slides.length
        = (min N 6).toNat
    ∧ (generate_fallback_content topic N Option.none (some cc)).slides.length
        = (min (N - 1) 6).toNat + 1
    ∧ ((generate_fallback_content topic N Option.none (some cc)).slides.head?).map
        SlideSpec.type = some "custom"
    ∧ ∀ i, i + 1 < (generate_fallback_content topic N Option.none (some cc)).slides.length →
        (generate_fallback_content topic N Option.none (some cc)).slides[i + 1]?
          = some { generate_slide_content topic (defaultSlideTypes.getD i "detailed") with
                   slide_number := i + 2 } := by
  have hdata : ¬cc.data = [] := by
    intro h0
    apply hcc
    exact String.ext (h0.trans rfl)
  have htruthy : pyTruthyStr (some cc) = true := by
    cases hd : cc.data with
    | nil => exact absurd hd hdata
    | cons a l => simp [pyTruthyStr, hd]
  have hslides : (generate_fallback_content topic N Option.none (some cc)).slides
      = { slide_number := 1
          type := "custom"
          title := "About " ++ topic
          content := cc
          bullet_points := extract_key_points_from_text cc
          image_prompt := topic ++ " overview illustration" }
        :: (List.range ((min (N - 1) 6).toNat)).map
          (fun i =>
            { generate_slide_content topic (defaultSlideTypes.getD i "detailed") with
              slide_number := i + 2 }) := by
    simp_arith [generate_fallback_content, htruthy, effectiveSlideTypes,
      length_defaultSlideTypes_int]
  refine ⟨?_, ?_, ?_, ?_⟩
  · simp [generate_fallback_content, pyTruthyStr, effectiveSlideTypes,
      length_defaultSlideTypes_int]
  · rw [hslides]
    simp
  · rw [hslides]
    rfl
  · intro i hi
    rw [hslides] at hi ⊢
    rw [List.getElem?_cons_succ]
    rw [List.length_cons, List.length_map, List.length_range] at hi
    exact getElem?_range_map _ _ _ (by omega)

/-- C1 witness at topic "AI", slide count 5 and custom content. -/
theorem c1_witness :
    (generate_fallback_content "AI" 5 Option.none Option.none).slides.length
      = (min (5 : Int) 6).toNat :=
  (c1_fallback_count "AI" 5 (by decide) (by decide) "Some custom content"
    (by decide)).1

/-- C5: whenever the response text fails to parse as JSON, or parses to a
value that is not a dictionary containing the key "slides",
`_generate_with_gemini` returns exactly the structure the fallback assembler
returns when called directly with the same four arguments. -/
theorem c5_malformed_response_fallback (parse : String → Option PyVal)
    (responseText topic : String) (num_slides : Int)
    (focus_areas : Option (List String)) (custom_content : Option String)
    (h : parse (extract_json_content responseText) = Option.none
         ∨ ∃ v, parse (extract_json_content responseText) = some v
             ∧ isDictWithSlides v = false) :
    generate_with_gemini parse responseText topic num_slides focus_areas custom_content
      = pyValOfStructure
          (generate_fallback_content topic num_slides focus_areas custom_content) := by
  rcases h with h | ⟨v, hv, hnd⟩
  · simp [generate_with_gemini, h]
  · simp only [generate_with_gemini, hv]
    cases v with
    | dict kvs =>
      simp only [isDictWithSlides] at hnd
      cases hd : dictGet kvs "slides" with
      | none => simp [hd]
      | some v2 => rw [hd] at hnd; simp at hnd
    | str s => rfl
    | int n => rfl
    | bool b => rfl
    | null => rfl
    | list xs => rfl

/-- C5 witness: a parser that always fails makes the Gemini path return the
fallback structure. -/
theorem c5_witness :
    generate_with_gemini alwaysFailParse "this is not json" "Remote Work" 3
        Option.none Option.none
      = pyValOfStructure
          (generate_fallback_content "Remote Work" 3 Option.none Option.none) :=
  c5_malformed_response_fallback alwaysFailParse "this is not json" "Remote Work" 3
    Option.none Option.none (Or.inl rfl)

/-- Template slides always carry exactly four bullet points. -/
theorem gsc_bullet_length (topic slide_type : String) :
    (generate_slide_content topic slide_type).bullet_points.length = 4 := by
  unfold generate_slide_content
  split
  · rfl
  · split
    · rfl
    · split
      · rfl
      · split
        · rfl
        · rfl

/-- C7 counterexample: a parsed Gemini slide arriving with seven bullet
points passes through the backfill unchanged, so a pipeline-produced slide
can carry more than six bullet points. -/
theorem c7_counterexample :
    generate_with_gemini c7Parse "response text" "Topic" 3 Option.none Option.none
      = PyVal.dict [("slides", PyVal.list [PyVal.dict
          [("bullet_points", PyVal.list c7Bullets),
           ("image_prompt", PyVal.str "Topic related illustration"),
           ("content", PyVal.str "Content about Topic")]])]
    ∧ c7Bullets.length = 7 := by
  exact ⟨rfl, rfl⟩

/-- C7 amended: every slide produced by the fallback path (template slides
and the custom-content slide) has at most six bullet points, and a Gemini
slide missing `bullet_points` is backfilled with exactly the three defaults;
but a `bullet_points` value already present in a parsed slide is passed
through unchanged, with no upper bound enforced. -/
theorem c7_bullet_bounds (topic : String) (num_slides : Int)
    (focus_areas : Option (List String)) (custom_content : Option String)
    (slide : List (String × PyVal)) :
    (∀ s ∈ (generate_fallback_content topic num_slides focus_areas custom_content).slides,
        s.bullet_points.length ≤ 6)
    ∧ (dictGet slide "bullet_points" = Option.none →
        dictGet (ensure_slide_fields topic slide) "bullet_points"
          = some bulletPointsDefault)
    ∧ (∀ v, dictGet slide "bullet_points" = some v →
        dictGet (ensure_slide_fields topic slide) "bullet_points" = some v) := by
  refine ⟨?_, ?_, ?_⟩
  · intro s hs
    simp only [generate_fallback_content] at hs
    rcases List.mem_append.mp hs with hin | hin
    · by_cases htr : pyTruthyStr custom_content
      · rw [if_pos htr] at hin
        rcases List.mem_singleton.mp hin with rfl
        have hle : (extract_key_points_from_text (custom_content.getD "")).length ≤ 6 := by
          unfold extract_key_points_from_text
          rw [List.length_take]
          exact Nat.min_le_left _ _
        simpa using hle
      · rw [if_neg htr] at hin
        exact absurd hin (List.not_mem_nil s)
    · obtain ⟨i, hi, hfi⟩ := List.mem_map.mp hin
      subst hfi
      simp [gsc_bullet_length]
  · intro hmiss
    unfold ensure_slide_fields
    rw [hmiss]
    simp only [Option.isSome_none, Bool.false_eq_true, if_false]
    have hb : dictGet (slide ++ [("bullet_points", bulletPointsDefault)]) "bullet_points"
        = some bulletPointsDefault := by
      rw [dictGet_append_none _ hmiss]
      simp [dictGet]
    by_cases hip : (dictGet (slide ++ [("bullet_points", bulletPointsDefault)])
        "image_prompt").isSome
    · rw [if_pos hip]
      by_cases hc : (dictGet (slide ++ [("bullet_points", bulletPointsDefault)])
          "content").isSome
      · rw [if_pos hc]
        exact hb
      · rw [if_neg hc]
        exact dictGet_append_some _ hb
    · rw [if_neg hip]
      have hb2 := dictGet_append_some
        [("image_prompt", PyVal.str (topic ++ " related illustration"))] hb
      by_cases hc : (dictGet ((slide ++ [("bullet_points", bulletPointsDefault)])
          ++ [("image_prompt", PyVal.str (topic ++ " related illustration"))])
          "content").isSome
      · rw [if_pos hc]
        exact hb2
      · rw [if_neg hc]
        exact dictGet_append_some _ hb2
  · intro v hv
    unfold ensure_slide_fields
    rw [hv]
    simp only [Option.isSome_some, if_true]
    by_cases hip : (dictGet slide "image_prompt").isSome
    · rw [if_pos hip]
      by_cases hc : (dictGet slide "content").isSome
      · rw [if_pos hc]
        exact hv
      · rw [if_neg hc]
        exact dictGet_append_some _ hv
    · rw [if_neg hip]
      have hv2 := dictGet_append_some
        [("image_prompt", PyVal.str (topic ++ " related illustration"))] hv
      by_cases hc : (dictGet (slide
          ++ [("image_prompt", PyVal.str (topic ++ " related illustration"))])
          "content").isSome
      · rw [if_pos hc]
        exact hv2
      · rw [if_neg hc]
        exact dictGet_append_some _ hv2

/-- C7 witness: concrete instances of the three amended conjuncts. -/
theorem c7_witness :
    dictGet (ensure_slide_fields "Topic" c7BadSlide) "bullet_points"
      = some (PyVal.list c7Bullets) :=
  (c7_bullet_bounds "Topic" 3 Option.none Option.none c7BadSlide).2.2
    (PyVal.list c7Bullets) rfl

/-- C6 counterexample: for a 50-character prompt, the placeholder drawn on
every failure path contains only the first 40 characters of the prompt, and
none of its drawn texts contains the full prompt text. -/
theorem c6_counterexample :
    generate_image Option.none ImageApiOutcome.timeout longPrompt
      = some (generate_placeholder_image longPrompt)
    ∧ ((placeholder_texts longPrompt).all fun t => !containsSub longPrompt.data t.data)
        = true
    ∧ longPrompt.data.length = 50 := by
  refine ⟨rfl, ?_, rfl⟩
  decide

/-- C6 amended: on every failure path (falsy API key, timeout, request
error, other exception, non-200 generation status, non-200 download status)
`generate_image` returns the non-empty placeholder PNG bytes, whose stream
opens with the PNG signature and whose drawn texts contain the first 40
characters of the prompt. -/
theorem c6_failure_placeholder (prompt : String) (api_key : Option String)
    (outcome : ImageApiOutcome)
    (hfail : pyTruthyStr api_key = false
        ∨ outcome = ImageApiOutcome.timeout
        ∨ (∃ m, outcome = ImageApiOutcome.requestError m)
        ∨ (∃ m, outcome = ImageApiOutcome.otherFailure m)
        ∨ (∃ s u d b, outcome = ImageApiOutcome.httpResponse s u d b
            ∧ (s ≠ 200 ∨ d ≠ 200))) :
    generate_image api_key outcome prompt = some (generate_placeholder_image prompt)
    ∧ generate_placeholder_image prompt ≠ []
    ∧ (generate_placeholder_image prompt).take 8 = pngSignature
    ∧ ∃ t ∈ placeholder_texts prompt,
        containsSub (prompt.data.take 40) t.data = true := by
  refine ⟨?_, ?_, ?_, ?_⟩
  · rcases hfail with h | h | ⟨m, h⟩ | ⟨m, h⟩ | ⟨s, u, d, b, h, hsd⟩
    · simp [generate_image, h]
    · subst h
      by_cases hk : pyTruthyStr api_key <;> simp [generate_image, hk]
    · subst h
      by_cases hk : pyTruthyStr api_key <;> simp [generate_image, hk]
    · subst h
      by_cases hk : pyTruthyStr api_key <;> simp [generate_image, hk]
    · subst h
      by_cases hk : pyTruthyStr api_key
      · rcases hsd with hs | hd
        · simp [generate_image, hk, hs]
        · by_cases hs2 : s = 200
          · simp [generate_image, hk, hs2, hd]
          · simp [generate_image, hk, hs2]
      · simp [generate_image, hk]
  · simp [generate_placeholder_image, pngEncode, pngSignature]
  · show (pngSignature ++ _).take 8 = pngSignature
    rw [show (8 : Nat) = pngSignature.length from rfl, List.take_left]
  · refine ⟨"Topic: " ++ pyTakeStr 40 prompt ++ "...", ?_, ?_⟩
    · simp [placeholder_texts]
    · apply containsSub_of_prefix_drop _ _ 7
      have hdata : ("Topic: " ++ pyTakeStr 40 prompt ++ "...").data
          = "Topic: ".data ++ (prompt.data.take 40 ++ "...".data) := by
        rw [strData_append, strData_append]
        simp [pyTakeStr, List.append_assoc]
      rw [hdata]
      have hdrop : ("Topic: ".data ++ (prompt.data.take 40 ++ "...".data)).drop 7
          = prompt.data.take 40 ++ "...".data := by
        rw [show (7 : Nat) = ("Topic: ".data).length from rfl, List.drop_left]
      rw [hdrop]
      exact isPrefixOf_append_self _ _

/-- C6 witness: the missing-credentials path at a short prompt. -/
theorem c6_witness :
    generate_image Option.none ImageApiOutcome.timeout "AI"
        = some (generate_placeholder_image "AI")
    ∧ generate_placeholder_image "AI" ≠ []
    ∧ (generate_placeholder_image "AI").take 8 = pngSignature
    ∧ ∃ t ∈ placeholder_texts "AI",
        containsSub ("AI".data.take 40) t.data = true :=
  c6_failure_placeholder "AI" Option.none ImageApiOutcome.timeout (Or.inl rfl)

theorem dictGet_bp_ip (a : List (String × PyVal)) (v : PyVal) :
    dictGet (a ++ [("bullet_points", v)]) "image_prompt" = dictGet a "image_prompt" :=
  dictGet_append_singleton_ne (by decide)

theorem dictGet_bp_ct (a : List (String × PyVal)) (v : PyVal) :
    dictGet (a ++ [("bullet_points", v)]) "content" = dictGet a "content" :=
  dictGet_append_singleton_ne (by decide)

theorem dictGet_bp_ti (a : List (String × PyVal)) (v : PyVal) :
    dictGet (a ++ [("bullet_points", v)]) "title" = dictGet a "title" :=
  dictGet_append_singleton_ne (by decide)

theorem dictGet_ip_ct (a : List (String × PyVal)) (v : PyVal) :
    dictGet (a ++ [("image_prompt", v)]) "content" = dictGet a "content" :=
  dictGet_append_singleton_ne (by decide)

theorem dictGet_ip_ti (a : List (String × PyVal)) (v : PyVal) :
    dictGet (a ++ [("image_prompt", v)]) "title" = dictGet a "title" :=
  dictGet_append_singleton_ne (by decide)

/-- Structural form of the backfill: each of the three fields is appended
exactly when it is missing from the incoming slide, and the `content`
default only depends on the incoming `title` and the topic. -/
theorem esf_split (topic : String) (slide : List (String × PyVal)) :
    ensure_slide_fields topic slide
      = slide
        ++ (if (dictGet slide "bullet_points").isSome then []
            else [("bullet_points", bulletPointsDefault)])
        ++ (if (dictGet slide "image_prompt").isSome then []
            else [("image_prompt", PyVal.str (topic ++ " related illustration"))])
        ++ (if (dictGet slide "content").isSome then []
            else [("content", PyVal.str ("Content about "
                ++ pyStrOf ((dictGet slide "title").getD (PyVal.str topic))))]) := by
  simp only [ensure_slide_fields]
  by_cases hb : (dictGet slide "bullet_points").isSome
  · simp only [if_pos hb]
    by_cases hip : (dictGet slide "image_prompt").isSome
    · simp only [if_pos hip]
      by_cases hc : (dictGet slide "content").isSome <;>
        simp [hb, hip, hc, List.append_assoc]
    · simp only [if_neg hip, dictGet_ip_ct, dictGet_ip_ti]
      by_cases hc : (dictGet slide "content").isSome <;>
        simp [hb, hip, hc, List.append_assoc]
  · simp only [if_neg hb, dictGet_bp_ip, dictGet_bp_ct, dictGet_bp_ti]
    by_cases hip : (dictGet slide "image_prompt").isSome
    · simp only [if_pos hip, dictGet_bp_ct, dictGet_bp_ti]
      by_cases hc : (dictGet slide "content").isSome <;>
        simp [hb, hip, hc, List.append_assoc]
    · simp only [if_neg hip, dictGet_ip_ct, dictGet_ip_ti, dictGet_bp_ct, dictGet_bp_ti]
      by_cases hc : (dictGet slide "content").isSome <;>
        simp [hb, hip, hc, List.append_assoc]

/-- Keys already present in a parsed slide are untouched by the backfill. -/
theorem esf_preserves (topic : String) (slide : List (String × PyVal))
    (k : String) (v : PyVal) (h : dictGet slide k = some v) :
    dictGet (ensure_slide_fields topic slide) k = some v := by
  rw [esf_split]
  exact dictGet_append_some _ (dictGet_append_some _ (dictGet_append_some _ h))

/-- Value of `bullet_points` after the backfill. -/
theorem esf_bullet (topic : String) (slide : List (String × PyVal)) :
    dictGet (ensure_slide_fields topic slide) "bullet_points"
      = some ((dictGet slide "bullet_points").getD bulletPointsDefault) := by
  rw [esf_split]
  by_cases hb : (dictGet slide "bullet_points").isSome
  · obtain ⟨v, hv⟩ := Option.isSome_iff_exists.mp hb
    rw [hv]
    simp only [Option.getD_some]
    exact dictGet_append_some _ (dictGet_append_some _ (dictGet_append_some _ hv))
  · have hnone : dictGet slide "bullet_points" = Option.none :=
      Option.not_isSome_iff_eq_none.mp hb
    have h1 : dictGet (slide ++ [("bullet_points", bulletPointsDefault)]) "bullet_points"
        = some bulletPointsDefault := by
      rw [dictGet_append_none _ hnone]
      rfl
    rw [if_neg hb, hnone]
    simp only [Option.getD_none]
    exact dictGet_append_some _ (dictGet_append_some _ h1)

/-- Value of `image_prompt` after the backfill. -/
theorem esf_image (topic : String) (slide : List (String × PyVal)) :
    dictGet (ensure_slide_fields topic slide) "image_prompt"
      = some ((dictGet slide "image_prompt").getD
          (PyVal.str (topic ++ " related illustration"))) := by
  rw [esf_split]
  by_cases hip : (dictGet slide "image_prompt").isSome
  · obtain ⟨v, hv⟩ := Option.isSome_iff_exists.mp hip
    rw [hv]
    simp only [Option.getD_some]
    exact dictGet_append_some _ (dictGet_append_some _ (dictGet_append_some _ hv))
  · have hnone : dictGet slide "image_prompt" = Option.none :=
      Option.not_isSome_iff_eq_none.mp hip
    have hA : dictGet (slide
        ++ (if (dictGet slide "bullet_points").isSome then []
            else [("bullet_points", bulletPointsDefault)])) "image_prompt"
        = Option.none := by
      rw [dictGet_append_none _ hnone]
      split
      · rfl
      · rfl
    have h1 : dictGet ((slide
        ++ (if (dictGet slide "bullet_points").isSome then []
            else [("bullet_points", bulletPointsDefault)]))
        ++ [("image_prompt", PyVal.str (topic ++ " related illustration"))]) "image_prompt"
        = some (PyVal.str (topic ++ " related illustration")) := by
      rw [dictGet_append_none _ hA]
      rfl
    rw [if_neg hip, hnone]
    simp only [Option.getD_none]
    exact dictGet_append_some _ h1

/-- Value of `content` after the backfill. -/
theorem esf_content (topic : String) (slide : List (String × PyVal)) :
    dictGet (ensure_slide_fields topic slide) "content"
      = some ((dictGet slide "content").getD
          (PyVal.str ("Content about "
            ++ pyStrOf ((dictGet slide "title").getD (PyVal.str topic))))) := by
  rw [esf_split]
  by_cases hc : (dictGet slide "content").isSome
  · obtain ⟨v, hv⟩ := Option.isSome_iff_exists.mp hc
    rw [hv]
    simp only [Option.getD_some]
    exact dictGet_append_some _ (dictGet_append_some _ (dictGet_append_some _ hv))
  · have hnone : dictGet slide "content" = Option.none :=
      Option.not_isSome_iff_eq_none.mp hc
    have hA : dictGet (slide
        ++ (if (dictGet slide "bullet_points").isSome then []
            else [("bullet_points", bulletPointsDefault)])) "content"
        = Option.none := by
      rw [dictGet_append_none _ hnone]
      split
      · rfl
      · rfl
    have hB : dictGet ((slide
        ++ (if (dictGet slide "bullet_points").isSome then []
            else [("bullet_points", bulletPointsDefault)]))
        ++ (if (dictGet slide "image_prompt").isSome then []
            else [("image_prompt", PyVal.str (topic ++ " related illustration"))]))
        "content" = Option.none := by
      rw [dictGet_append_none _ hA]
      split
      · rfl
      · rfl
    rw [if_neg hc, hnone]
    simp only [Option.getD_none]
    rw [dictGet_append_none _ hB]
    rfl

/-- C4: the JSON-extraction step takes the interior of the first fenced code
block when the fence search matches; otherwise, when the stripped text has
both an opening brace (first occurrence at `js`) and a closing brace (last
occurrence at `je`), it takes the slice from `js` to `je` inclusive, and the
whole stripped text when either brace is absent; and after parsing, a slide
missing `bullet_points`, `image_prompt` or `content` gets exactly the
synthesized default for that field while present fields are preserved. -/
theorem c4_extraction_and_backfill (text topic : String)
    (slide : List (String × PyVal)) :
    (∀ g, fenceSearch (pyStripL text.data) = some g →
        extract_json_content text = String.mk g)
    ∧ (fenceSearch (pyStripL text.data) = Option.none →
        ∀ js je,
          (pyStripL text.data)[js]? = some lbraceChar →
          (∀ j, j < js → (pyStripL text.data)[j]? ≠ some lbraceChar) →
          (pyStripL text.data)[je]? = some rbraceChar →
          (∀ j, je < j → (pyStripL text.data)[j]? ≠ some rbraceChar) →
          extract_json_content text
            = String.mk (((pyStripL text.data).drop js).take (je + 1 - js)))
    ∧ (fenceSearch (pyStripL text.data) = Option.none →
        (lbraceChar ∉ pyStripL text.data ∨ rbraceChar ∉ pyStripL text.data) →
        extract_json_content text = String.mk (pyStripL text.data))
    ∧ ((dictGet (ensure_slide_fields topic slide) "bullet_points").isSome = true
        ∧ (dictGet (ensure_slide_fields topic slide) "image_prompt").isSome = true
        ∧ (dictGet (ensure_slide_fields topic slide) "content").isSome = true
        ∧ (dictGet slide "bullet_points" = Option.none →
            dictGet (ensure_slide_fields topic slide) "bullet_points"
              = some bulletPointsDefault)
        ∧ (dictGet slide "image_prompt" = Option.none →
            dictGet (ensure_slide_fields topic slide) "image_prompt"
              = some (PyVal.str (topic ++ " related illustration")))
        ∧ (dictGet slide "content" = Option.none →
            dictGet (ensure_slide_fields topic slide) "content"
              = some (PyVal.str ("Content about "
                  ++ pyStrOf ((dictGet slide "title").getD (PyVal.str topic)))))
        ∧ (∀ k v, dictGet slide k = some v →
            dictGet (ensure_slide_fields topic slide) k = some v)) := by
  refine ⟨?_, ?_, ?_, ?_, ?_, ?_, ?_, ?_, ?_, ?_⟩
  · intro g h
    simp [extract_json_content, h]
  · intro hf js je h1 h2 h3 h4
    have hfc : findCharIdx lbraceChar (pyStripL text.data) = some js := by
      cases hx : findCharIdx lbraceChar (pyStripL text.data) with
      | none =>
        exact absurd (List.mem_iff_getElem?.mpr ⟨js, h1⟩)
          ((findCharIdx_none_iff _ _).mp hx)
      | some k =>
        obtain ⟨hk1, hk2⟩ := findCharIdx_some_sound _ _ _ hx
        have hkj : k = js := by
          rcases Nat.lt_trichotomy k js with hlt | heq | hgt
          · exact absurd hk1 (h2 k hlt)
          · exact heq
          · exact absurd h1 (hk2 js hgt)
        rw [hkj]
    have hrc : rfindChar rbraceChar (pyStripL text.data) = some je := by
      cases hx : rfindChar rbraceChar (pyStripL text.data) with
      | none =>
        exact absurd (List.mem_iff_getElem?.mpr ⟨je, h3⟩)
          ((rfindChar_none_iff _ _).mp hx)
      | some k =>
        obtain ⟨hk1, hk2⟩ := rfindChar_some_sound _ _ _ hx
        have hkj : k = je := by
          rcases Nat.lt_trichotomy k je with hlt | heq | hgt
          · exact absurd h3 (hk2 je hlt)
          · exact heq
          · exact absurd hk1 (h4 k hgt)
        rw [hkj]
    simp [extract_json_content, hf, hfc, hrc]
  · intro hf h
    rcases h with h | h
    · have hn : findCharIdx lbraceChar (pyStripL text.data) = Option.none :=
        (findCharIdx_none_iff _ _).mpr h
      simp [extract_json_content, hf, hn]
    · have hn : rfindChar rbraceChar (pyStripL text.data) = Option.none :=
        (rfindChar_none_iff _ _).mpr h
      cases hx : findCharIdx lbraceChar (pyStripL text.data) with
      | none => simp [extract_json_content, hf, hx]
      | some k => simp [extract_json_content, hf, hx, hn]
  · rw [esf_bullet]
    rfl
  · rw [esf_image]
    rfl
  · rw [esf_content]
    rfl
  · intro hm
    rw [esf_bullet, hm]
    rfl
  · intro hm
    rw [esf_image, hm]
    rfl
  · intro hm
    rw [esf_content, hm]
    rfl
  · intro k v hv
    exact esf_preserves topic slide k v hv

/-- C4 witness: a fenced response yields the fenced interior, and a slide
missing all three optional fields is backfilled. -/
theorem c4_witness :
    extract_json_content "```json data```" = String.mk "data".data
    ∧ dictGet (ensure_slide_fields "AI" []) "bullet_points" = some bulletPointsDefault :=
  ⟨(c4_extraction_and_backfill "```json data```" "AI" []).1 "data".data rfl,
   (c4_extraction_and_backfill "```json data```" "AI" []).2.2.2.2.2.2.1 rfl⟩
